import Mathlib

/-!
Verification development for the NetLog log multiplexer
(src/PlatformIO/lib/RdNetLog/NetLog.h).

The class `NetLog` is embedded as a pure state-passing model:
- the mutable fields of the C++ object become fields of `NetLogState`;
- the external collaborators are modelled as traces recorded in the state:
  bytes written to the global `Serial` object (`serialOut`), bytes written
  to the constructor-injected `Print& _output` sink (`outputOut`; the
  source never writes to it), structured records handed to
  `MQTTManager::reportSilent` (`mqttSent`) and to
  `CommandSerial::logMessage` (`cmdSent`), HTTP POST attempts
  (`httpAttempts`), and configuration strings handed to the persistence
  collaborator via `setConfigData` and `writeConfig` (`nvLog`);
- `millis()` is passed in explicitly as a `Nat` where the source reads it;
- bytes are `Nat` (the `uint8_t` argument of `write`), line text is
  `List Nat`.

A structured record handed to the MQTT or command-serial sink is kept as
its two components (numeric level and sanitized text); the source renders
exactly these two components into a JSON string before handing it over.
The HTTP branch is recorded as an attempt trace entry; whether the TCP
connect succeeds depends on the environment and no claim depends on it.
Diagnostic `Serial.printf` calls in the configuration setters are not
tracked (they are not part of the byte-ingestion path).
-/

namespace NetLog

/-- Severity constants used by the source (from the ArduinoLog header,
which is an external library; the spec fixes the same ordering
SILENT=0 < FATAL < ERROR < WARNING < NOTICE < TRACE < VERBOSE). -/
def LOG_LEVEL_SILENT : Int := 0

/-- ArduinoLog FATAL level. -/
def LOG_LEVEL_FATAL : Int := 1

/-- ArduinoLog ERROR level. -/
def LOG_LEVEL_ERROR : Int := 2

/-- ArduinoLog WARNING level. -/
def LOG_LEVEL_WARNING : Int := 3

/-- ArduinoLog NOTICE level. -/
def LOG_LEVEL_NOTICE : Int := 4

/-- ArduinoLog TRACE level. -/
def LOG_LEVEL_TRACE : Int := 5

/-- ArduinoLog VERBOSE level. -/
def LOG_LEVEL_VERBOSE : Int := 6

/-- NetLog.h line 26: `const int LOG_LINE_MAXLEN = 250`. -/
def LOG_LINE_MAXLEN : Nat := 250

/-- NetLog.h line 17: `ASCII_XOFF = 0x13`. -/
def ASCII_XOFF : Nat := 19

/-- NetLog.h line 18: `ASCII_XON = 0x11`. -/
def ASCII_XON : Nat := 17

/-- A structured log record: the numeric severity and the sanitized text
that NetLog.h lines 340-345 serialize as a two-field JSON object and hand
to the MQTT / command-serial collaborators. -/
structure LogRec where
  level : Int
  msg : List Nat
  deriving Repr, DecidableEq

/-- The state of a `NetLog` object, together with the traces of its
interactions with collaborators. -/
structure NetLogState where
  msgToLog : List Nat
  firstChOnLine : Bool
  collectLineForLog : Bool
  curMsgLogLevel : Int
  logToMQTT : Bool
  mqttLogTopic : String
  logToHTTP : Bool
  httpIpAddr : String
  httpPort : Int
  httpLogUrl : String
  logToSerial : Bool
  serialPort : Int
  logToCommandSerial : Bool
  loggingThreshold : Int
  hasConfigBase : Bool
  isPaused : Bool
  pauseTimeMs : Nat
  pauseStartedMs : Nat
  chBuffer : List Nat
  chBufferCap : Nat
  serialOut : List Nat
  outputOut : List Nat
  mqttSent : List LogRec
  cmdSent : List LogRec
  httpAttempts : List LogRec
  nvLog : List String
  deriving Repr, DecidableEq

/-- The constructor NetLog.h lines 66-89 (with the `_output` reference,
`_mqttManager` and `_commandSerial` replaced by their traces). -/
def initState (pauseBufferMaxChars : Nat) (pauseTimeMs : Nat) : NetLogState :=
  { msgToLog := [], firstChOnLine := true, collectLineForLog := false,
    curMsgLogLevel := LOG_LEVEL_SILENT, logToMQTT := false, mqttLogTopic := "",
    logToHTTP := false, httpIpAddr := "", httpPort := 5076, httpLogUrl := "",
    logToSerial := true, serialPort := 0, logToCommandSerial := false,
    loggingThreshold := LOG_LEVEL_SILENT, hasConfigBase := false,
    isPaused := false, pauseTimeMs := pauseTimeMs, pauseStartedMs := 0,
    chBuffer := [], chBufferCap := pauseBufferMaxChars,
    serialOut := [], outputOut := [], mqttSent := [], cmdSent := [],
    httpAttempts := [], nvLog := [] }

/-- First-character severity classification, the switch at NetLog.h
lines 305-313: the letters F E W N T V and the raw byte values 1..6 map
to the corresponding levels, everything else stays SILENT. -/
def msgLevelOf (ch : Nat) : Int :=
  if ch = 70 ∨ ch = 1 then LOG_LEVEL_FATAL
  else if ch = 69 ∨ ch = 2 then LOG_LEVEL_ERROR
  else if ch = 87 ∨ ch = 3 then LOG_LEVEL_WARNING
  else if ch = 78 ∨ ch = 4 then LOG_LEVEL_NOTICE
  else if ch = 84 ∨ ch = 5 then LOG_LEVEL_TRACE
  else if ch = 86 ∨ ch = 6 then LOG_LEVEL_VERBOSE
  else LOG_LEVEL_SILENT

/-- The two `String::replace` calls at NetLog.h lines 336-337: remove
every linefeed (10) and carriage return (13) from the collected text. -/
def stripCtl (m : List Nat) : List Nat :=
  m.filter (fun b => !(b == 10 || b == 13))

/-- NetLog.h lines 288-293: forward the byte to the global `Serial`
object when `_logToSerial` is set and `_serialPort == 0`. -/
def serialEcho (s : NetLogState) (ch : Nat) : NetLogState :=
  if s.logToSerial = true ∧ s.serialPort = 0 then
    { s with serialOut := s.serialOut ++ [ch] }
  else s

/-- NetLog.h lines 299-325: the per-byte line-assembly step.  On the
first character of a line, classify it and start collecting when the
level passes the threshold; otherwise append while collecting, subject to
the `LOG_LINE_MAXLEN` cap. -/
def assembleCh (s : NetLogState) (ch : Nat) : NetLogState :=
  if s.firstChOnLine then
    let lvl := msgLevelOf ch
    let sA := { s with firstChOnLine := false }
    if lvl ≤ sA.loggingThreshold then
      { sA with collectLineForLog := true, curMsgLogLevel := lvl,
                msgToLog := [ch] }
    else sA
  else if s.collectLineForLog then
    if s.msgToLog.length < LOG_LINE_MAXLEN then
      { s with msgToLog := s.msgToLog ++ [ch] }
    else s
  else s

/-- NetLog.h lines 333-374: the body of `if (_msgToLog.length() > 0)`.
Strip linefeeds and carriage returns from the collected text, hand the
record to MQTT and/or command-serial when those sinks are enabled, then
attempt the HTTP POST when that sink is enabled. -/
def dispatchLine (s : NetLogState) : NetLogState :=
  if s.msgToLog.length > 0 then
    let text := stripCtl s.msgToLog
    let s6 :=
      if s.logToMQTT = true ∨ s.logToCommandSerial = true then
        let s7 :=
          if s.logToMQTT then
            { s with mqttSent := s.mqttSent ++ [⟨s.curMsgLogLevel, text⟩] }
          else s
        if s7.logToCommandSerial then
          { s7 with cmdSent := s7.cmdSent ++ [⟨s7.curMsgLogLevel, text⟩] }
        else s7
      else s
    if s6.logToHTTP = true then
      { s6 with httpAttempts := s6.httpAttempts ++ [⟨s6.curMsgLogLevel, text⟩] }
    else s6
  else s

/-- NetLog.h lines 327-378: the end-of-line handling when `ch == '\n'`:
reset the first-char flag, dispatch a collected line and clear the text,
and clear the collecting flag. -/
def eolStep (s : NetLogState) : NetLogState :=
  let s3 := { s with firstChOnLine := true }
  let s4 :=
    if s3.collectLineForLog then
      { dispatchLine s3 with msgToLog := [] }
    else s3
  { s4 with collectLineForLog := false }

/-- `size_t write(uint8_t ch)`, NetLog.h lines 272-380.
The paused branch stores the byte in the pause buffer if there is room
(the buffer pointer is non-null from construction on; the FIFO ring
`RingBufferPosn` is modelled as a list, see `handleLoggedDuringPause`).
The live branch forwards to `Serial` (`serialEcho`), returns early when
no structured sink is enabled, then runs the line-assembly step
(`assembleCh`) and, on a terminator byte, the end-of-line dispatch
(`eolStep`). -/
def write (s : NetLogState) (ch : Nat) : NetLogState :=
  if s.isPaused then
    if s.chBuffer.length < s.chBufferCap then
      { s with chBuffer := s.chBuffer ++ [ch] }
    else s
  else
    let s1 := serialEcho s ch
    if ¬(s1.logToMQTT = true ∨ s1.logToHTTP = true ∨ s1.logToCommandSerial = true) then
      s1
    else
      let s2 := assembleCh s1 ch
      if ch = 10 then eolStep s2 else s2

/-- Feeding a sequence of bytes one `write` at a time. -/
def feedAll (s : NetLogState) (bs : List Nat) : NetLogState :=
  bs.foldl write s

/-- `pause()`, NetLog.h lines 257-261; `millis()` is the argument. -/
def pause (s : NetLogState) (nowMs : Nat) : NetLogState :=
  { s with isPaused := true, pauseStartedMs := nowMs }

/-- `handleLoggedDuringPause()`, NetLog.h lines 424-432: drain the pause
buffer through `write`, oldest byte first.  The loop is entered only
after `_isPaused` has been cleared, and `write` with `_isPaused == false`
never touches the buffer, so the while-loop equals feeding the snapshot
of the buffer contents with the buffer emptied.  The FIFO behaviour of
the position tracker is modelled from the spec (RdRingBufferPosn.h is not
part of this tree): RingPosn is a bounded circular position tracker whose
get side returns the retained bytes oldest-first. -/
def handleLoggedDuringPause (s : NetLogState) : NetLogState :=
  feedAll { s with chBuffer := [] } s.chBuffer

/-- `resume()`, NetLog.h lines 263-270. -/
def resume (s : NetLogState) : NetLogState :=
  if s.isPaused then
    handleLoggedDuringPause { s with isPaused := false }
  else s

/-- Modelled from the spec: `Utils::isTimeout` (the Utils header is not
part of this tree).  Per the spec, the service tick compares the elapsed
time since pause start against the configured pause duration and resumes
when it is exceeded; time is modelled as monotone (no 32-bit wrap). -/
def isTimeout (curMs lastMs maxDurationMs : Nat) : Prop :=
  maxDurationMs < curMs - lastMs

instance (c l m : Nat) : Decidable (isTimeout c l m) :=
  inferInstanceAs (Decidable (m < c - l))

/-- `service(char xonXoffChar)`, NetLog.h lines 382-421; `millis()` is
the `nowMs` argument.  The WiFi read-and-discard pump at lines 385-401
touches none of the modelled state and is omitted. -/
def service (s : NetLogState) (nowMs : Nat) (xonXoffChar : Nat) : NetLogState :=
  let s1 := if xonXoffChar = ASCII_XOFF then pause s nowMs
            else if xonXoffChar = ASCII_XON then resume s
            else s
  if s1.isPaused = true ∧ isTimeout nowMs s1.pauseStartedMs s1.pauseTimeMs then
    handleLoggedDuringPause { s1 with isPaused := false }
  else s1

/-- Arduino `String(b ? 1 : 0)` and the int-to-String concatenations in
`formConfigStr` (the `_logToSerial` and `_logToCommandSerial` fields are
C ints holding 0 or 1). -/
def boolTo01 (b : Bool) : String :=
  if b then "1" else "0"

/-- `formConfigStr()`, NetLog.h lines 241-255. -/
def formConfigStr (s : NetLogState) : String :=
  "\x7b\"LogLevel\":\"" ++ toString s.loggingThreshold ++
  "\",\"MQTTFlag\":\"" ++ boolTo01 s.logToMQTT ++
  "\",\"MQTTTopic\":\"" ++ s.mqttLogTopic ++
  "\",\"HTTPFlag\":\"" ++ boolTo01 s.logToHTTP ++
  "\",\"HTTPAddr\":\"" ++ s.httpIpAddr ++
  "\",\"HTTPPort\":\"" ++ toString s.httpPort ++
  "\",\"HTTPUrl\":\"" ++ s.httpLogUrl ++
  "\",\"SerialFlag\":\"" ++ boolTo01 s.logToSerial ++
  "\",\"SerialPort\":\"" ++ toString s.serialPort ++
  "\",\"CmdSerial\":\"" ++ boolTo01 s.logToCommandSerial ++
  "\"\x7d"

/-- The persistence write-back used by every setter:
`_pConfigBase->setConfigData(formConfigStr().c_str())` followed by
`_pConfigBase->writeConfig()`, guarded by `_pConfigBase` being non-null.
One `nvLog` entry records one such write-back pair. -/
def persistConfig (s : NetLogState) : NetLogState :=
  if s.hasConfigBase then { s with nvLog := s.nvLog ++ [formConfigStr s] }
  else s

/-- C `toupper` restricted to ASCII, as applied to `*logLevelStr`. -/
def toUpperC (c : Char) : Char :=
  if 'a' ≤ c ∧ c ≤ 'z' then Char.ofNat (c.toNat - 32) else c

/-- First character of a C string; the empty string reads as NUL. -/
def headCh (str : String) : Char :=
  str.data.headD (Char.ofNat 0)

/-- The switch in `setLogLevel`, NetLog.h lines 95-103 (cases are the
upper-case letters and the raw character codes 1..6). -/
def levelForChar (c : Char) : Int :=
  if c = 'F' ∨ c.toNat = 1 then LOG_LEVEL_FATAL
  else if c = 'E' ∨ c.toNat = 2 then LOG_LEVEL_ERROR
  else if c = 'W' ∨ c.toNat = 3 then LOG_LEVEL_WARNING
  else if c = 'N' ∨ c.toNat = 4 then LOG_LEVEL_NOTICE
  else if c = 'T' ∨ c.toNat = 5 then LOG_LEVEL_TRACE
  else if c = 'V' ∨ c.toNat = 6 then LOG_LEVEL_VERBOSE
  else LOG_LEVEL_SILENT

/-- The effective log level parsed from a setter argument:
`toupper(*logLevelStr)` pushed through the switch. -/
def parseLogLevel (str : String) : Int :=
  levelForChar (toUpperC (headCh str))

/-- `setLogLevel(const char*)`, NetLog.h lines 91-123 (the diagnostic
`Serial.printf` calls are not tracked). -/
def setLogLevel (s : NetLogState) (logLevelStr : String) : NetLogState :=
  let logLevel := parseLogLevel logLevelStr
  let logLevelChanged := s.loggingThreshold ≠ logLevel
  let s1 := { s with loggingThreshold := logLevel }
  if logLevelChanged then persistConfig s1 else s1

/-- `setMQTT(bool, const char*)`, NetLog.h lines 125-140. -/
def setMQTT (s : NetLogState) (mqttFlag : Bool) (topicStr : String) : NetLogState :=
  let dataChanged := s.logToMQTT ≠ mqttFlag ∨ s.mqttLogTopic ≠ topicStr
  let s1 := { s with logToMQTT := mqttFlag, mqttLogTopic := topicStr }
  if dataChanged then persistConfig s1 else s1

/-- C `isspace` on ASCII, as consumed by `atoi`. -/
def isSpaceC (c : Char) : Bool :=
  c == ' ' || c == '\t' || c == '\n' || c == '\x0b' || c == '\x0c' || c == '\r'

/-- Accumulate a leading run of decimal digits, C `atoi` style. -/
def digitsVal : List Char → Int → Int
  | [], acc => acc
  | c :: rest, acc =>
      if c.isDigit then digitsVal rest (acc * 10 + ((c.toNat : Int) - 48))
      else acc

/-- C `atoi` / Arduino `String::toInt`: skip whitespace, optional sign,
then a leading run of digits (overflow is not modelled; the inputs of
interest are small). -/
def atoi (str : String) : Int :=
  match str.data.dropWhile isSpaceC with
  | '-' :: rest => - digitsVal rest 0
  | '+' :: rest => digitsVal rest 0
  | rest => digitsVal rest 0

/-- `setSerial(bool, const char*)`, NetLog.h lines 142-157.  Note the
change test compares `String(_serialPort)` (the decimal rendering of the
current port) with the raw argument string, while the stored value is
`atoi(serialPortStr)`. -/
def setSerial (s : NetLogState) (onOffFlag : Bool) (serialPortStr : String) : NetLogState :=
  let dataChanged := s.logToSerial ≠ onOffFlag ∨ toString s.serialPort ≠ serialPortStr
  let s1 := { s with logToSerial := onOffFlag, serialPort := atoi serialPortStr }
  if dataChanged then persistConfig s1 else s1

/-- `setCmdSerial(bool)`, NetLog.h lines 159-173. -/
def setCmdSerial (s : NetLogState) (onOffFlag : Bool) : NetLogState :=
  let dataChanged := s.logToCommandSerial ≠ onOffFlag
  let s1 := { s with logToCommandSerial := onOffFlag }
  if dataChanged then persistConfig s1 else s1

/-- `setHTTP(bool, const char*, const char*, const char*)`, NetLog.h
lines 175-207: empty arguments default to the current values, the port is
parsed with `String::toInt`. -/
def setHTTP (s : NetLogState) (httpFlag : Bool)
    (ipAddr portStr httpLogUrl : String) : NetLogState :=
  let ipAddrValidated := if ipAddr.length = 0 then s.httpIpAddr else ipAddr
  let portValidated := if portStr.length = 0 then s.httpPort else atoi portStr
  let httpLogUrlValidated := if httpLogUrl.length = 0 then s.httpLogUrl else httpLogUrl
  let dataChanged := s.logToHTTP ≠ httpFlag ∨ s.httpLogUrl ≠ httpLogUrlValidated ∨
                     s.httpIpAddr ≠ ipAddrValidated ∨ s.httpPort ≠ portValidated
  let s1 := { s with logToHTTP := httpFlag, httpIpAddr := ipAddrValidated,
                     httpPort := portValidated, httpLogUrl := httpLogUrlValidated }
  if dataChanged then persistConfig s1 else s1

/-- A NetLog object freshly constructed, with the structured-sink flags
and threshold set as given (the state in which the dispatch claims are
examined: line assembly at a line boundary, not paused, traces empty). -/
def readyState (mqtt http cmd : Bool) (T : Int) : NetLogState :=
  { initState 1000 15000 with logToMQTT := mqtt, logToHTTP := http,
                              logToCommandSerial := cmd, loggingThreshold := T }

/-- A NetLog object with MQTT logging enabled at the most verbose
threshold and a pause buffer of the given capacity (used for the
pause/resume scenarios). -/
def pauseDemoState (cap : Nat) : NetLogState :=
  { initState cap 15000 with logToMQTT := true,
                             loggingThreshold := LOG_LEVEL_VERBOSE }

/-- A NetLog object after `setup` attached a persistence collaborator
(used for the configuration-setter scenarios). -/
def cfgState : NetLogState :=
  { readyState true false false LOG_LEVEL_VERBOSE with hasConfigBase := true }

/-- A paused NetLog object (pause duration 100 ms, paused at time 0)
holding one buffered byte. -/
def timeoutDemoState : NetLogState :=
  { initState 4 100 with isPaused := true, chBuffer := [65] }

/-- A paused NetLog object whose pause buffer is full (capacity 3). -/
def fullPausedState : NetLogState :=
  { initState 3 15000 with logToMQTT := true,
                           loggingThreshold := LOG_LEVEL_VERBOSE,
                           isPaused := true, chBuffer := [87, 97, 10] }

/-! ## Frame lemmas for the stages of `write` -/

/-- `serialEcho` changes at most the `Serial` trace. -/
lemma serialEcho_frame (s : NetLogState) (b : Nat) :
    (serialEcho s b) = { s with serialOut := (serialEcho s b).serialOut } := by
  simp only [serialEcho]; split_ifs <;> rfl

/-- `assembleCh` changes at most the line-assembly fields. -/
lemma assembleCh_frame (s : NetLogState) (b : Nat) :
    (assembleCh s b) = { s with
      msgToLog := (assembleCh s b).msgToLog,
      firstChOnLine := (assembleCh s b).firstChOnLine,
      collectLineForLog := (assembleCh s b).collectLineForLog,
      curMsgLogLevel := (assembleCh s b).curMsgLogLevel } := by
  simp only [assembleCh]; split_ifs <;> rfl

/-- `dispatchLine` changes at most the three structured-sink traces. -/
lemma dispatchLine_frame (s : NetLogState) :
    (dispatchLine s) = { s with
      mqttSent := (dispatchLine s).mqttSent,
      cmdSent := (dispatchLine s).cmdSent,
      httpAttempts := (dispatchLine s).httpAttempts } := by
  simp only [dispatchLine]; split_ifs <;> rfl

/-- `eolStep` changes at most the line-assembly fields and the
structured-sink traces. -/
lemma eolStep_frame (s : NetLogState) :
    (eolStep s) = { s with
      msgToLog := (eolStep s).msgToLog,
      firstChOnLine := (eolStep s).firstChOnLine,
      collectLineForLog := (eolStep s).collectLineForLog,
      mqttSent := (eolStep s).mqttSent,
      cmdSent := (eolStep s).cmdSent,
      httpAttempts := (eolStep s).httpAttempts } := by
  simp only [eolStep]
  split_ifs with h1
  · rw [dispatchLine_frame { s with firstChOnLine := true }]
  · rfl

/-- `write` never changes the pause flag. -/
lemma write_isPaused (s : NetLogState) (b : Nat) :
    (write s b).isPaused = s.isPaused := by
  simp only [write]
  split_ifs with h1 h2 h3 h4 <;>
    first
    | rfl
    | (rw [eolStep_frame (assembleCh (serialEcho s b) b),
          assembleCh_frame (serialEcho s b) b, serialEcho_frame s b])
    | (rw [assembleCh_frame (serialEcho s b) b, serialEcho_frame s b])
    | rw [serialEcho_frame s b]

/-- `write` never changes the configuration fields, the persisted-config
trace, or the primary-output trace. -/
lemma write_frame (s : NetLogState) (b : Nat) :
    (write s b).logToMQTT = s.logToMQTT ∧
    (write s b).logToHTTP = s.logToHTTP ∧
    (write s b).logToCommandSerial = s.logToCommandSerial ∧
    (write s b).logToSerial = s.logToSerial ∧
    (write s b).serialPort = s.serialPort ∧
    (write s b).loggingThreshold = s.loggingThreshold ∧
    (write s b).chBufferCap = s.chBufferCap ∧
    (write s b).outputOut = s.outputOut ∧
    (write s b).nvLog = s.nvLog := by
  simp only [write]
  split_ifs with h1 h2 h3 h4 <;>
    first
    | simp
    | (rw [eolStep_frame (assembleCh (serialEcho s b) b),
          assembleCh_frame (serialEcho s b) b, serialEcho_frame s b]; simp)
    | (rw [assembleCh_frame (serialEcho s b) b, serialEcho_frame s b]; simp)
    | (rw [serialEcho_frame s b]; simp)

/-- `serialEcho` leaves the MQTT enable flag unchanged. -/
@[simp] lemma serialEcho_logToMQTT (s : NetLogState) (b : Nat) :
    (serialEcho s b).logToMQTT = s.logToMQTT := by
  simp only [serialEcho]; split_ifs <;> rfl

/-- `serialEcho` leaves the HTTP enable flag unchanged. -/
@[simp] lemma serialEcho_logToHTTP (s : NetLogState) (b : Nat) :
    (serialEcho s b).logToHTTP = s.logToHTTP := by
  simp only [serialEcho]; split_ifs <;> rfl

/-- `serialEcho` leaves the command-serial enable flag unchanged. -/
@[simp] lemma serialEcho_logToCommandSerial (s : NetLogState) (b : Nat) :
    (serialEcho s b).logToCommandSerial = s.logToCommandSerial := by
  simp only [serialEcho]; split_ifs <;> rfl

/-- `serialEcho` leaves the first-char flag unchanged. -/
@[simp] lemma serialEcho_firstChOnLine (s : NetLogState) (b : Nat) :
    (serialEcho s b).firstChOnLine = s.firstChOnLine := by
  simp only [serialEcho]; split_ifs <;> rfl

/-- `serialEcho` leaves the collecting flag unchanged. -/
@[simp] lemma serialEcho_collectLineForLog (s : NetLogState) (b : Nat) :
    (serialEcho s b).collectLineForLog = s.collectLineForLog := by
  simp only [serialEcho]; split_ifs <;> rfl

/-- `serialEcho` leaves the collected text unchanged. -/
@[simp] lemma serialEcho_msgToLog (s : NetLogState) (b : Nat) :
    (serialEcho s b).msgToLog = s.msgToLog := by
  simp only [serialEcho]; split_ifs <;> rfl

/-- `serialEcho` leaves the current line severity unchanged. -/
@[simp] lemma serialEcho_curMsgLogLevel (s : NetLogState) (b : Nat) :
    (serialEcho s b).curMsgLogLevel = s.curMsgLogLevel := by
  simp only [serialEcho]; split_ifs <;> rfl

/-- `serialEcho` leaves the severity threshold unchanged. -/
@[simp] lemma serialEcho_loggingThreshold (s : NetLogState) (b : Nat) :
    (serialEcho s b).loggingThreshold = s.loggingThreshold := by
  simp only [serialEcho]; split_ifs <;> rfl

/-- `serialEcho` leaves the MQTT trace unchanged. -/
@[simp] lemma serialEcho_mqttSent (s : NetLogState) (b : Nat) :
    (serialEcho s b).mqttSent = s.mqttSent := by
  simp only [serialEcho]; split_ifs <;> rfl

/-- `serialEcho` leaves the command-serial trace unchanged. -/
@[simp] lemma serialEcho_cmdSent (s : NetLogState) (b : Nat) :
    (serialEcho s b).cmdSent = s.cmdSent := by
  simp only [serialEcho]; split_ifs <;> rfl

/-- `serialEcho` leaves the HTTP attempt trace unchanged. -/
@[simp] lemma serialEcho_httpAttempts (s : NetLogState) (b : Nat) :
    (serialEcho s b).httpAttempts = s.httpAttempts := by
  simp only [serialEcho]; split_ifs <;> rfl

/-- `serialEcho` leaves the pause flag unchanged. -/
@[simp] lemma serialEcho_isPaused (s : NetLogState) (b : Nat) :
    (serialEcho s b).isPaused = s.isPaused := by
  simp only [serialEcho]; split_ifs <;> rfl

/-- `serialEcho` leaves the pause buffer unchanged. -/
@[simp] lemma serialEcho_chBuffer (s : NetLogState) (b : Nat) :
    (serialEcho s b).chBuffer = s.chBuffer := by
  simp only [serialEcho]; split_ifs <;> rfl

/-- Projection of `write_frame`: the MQTT enable flag is never changed. -/
@[simp] lemma write_logToMQTT (s : NetLogState) (b : Nat) :
    (write s b).logToMQTT = s.logToMQTT := (write_frame s b).1

/-- Projection of `write_frame`: the HTTP enable flag is never changed. -/
@[simp] lemma write_logToHTTP (s : NetLogState) (b : Nat) :
    (write s b).logToHTTP = s.logToHTTP := (write_frame s b).2.1

/-- Projection of `write_frame`: the command-serial enable flag is never
changed. -/
@[simp] lemma write_logToCommandSerial (s : NetLogState) (b : Nat) :
    (write s b).logToCommandSerial = s.logToCommandSerial :=
  (write_frame s b).2.2.1

/-- Projection of `write_frame`: the serial enable flag is never changed. -/
@[simp] lemma write_logToSerial (s : NetLogState) (b : Nat) :
    (write s b).logToSerial = s.logToSerial := (write_frame s b).2.2.2.1

/-- Projection of `write_frame`: the serial channel id is never changed. -/
@[simp] lemma write_serialPort (s : NetLogState) (b : Nat) :
    (write s b).serialPort = s.serialPort := (write_frame s b).2.2.2.2.1

/-- Projection of `write_frame`: the severity threshold is never changed. -/
@[simp] lemma write_loggingThreshold (s : NetLogState) (b : Nat) :
    (write s b).loggingThreshold = s.loggingThreshold :=
  (write_frame s b).2.2.2.2.2.1

/-- Projection of `write_frame`: the pause-buffer capacity is never
changed. -/
@[simp] lemma write_chBufferCap (s : NetLogState) (b : Nat) :
    (write s b).chBufferCap = s.chBufferCap :=
  (write_frame s b).2.2.2.2.2.2.1

/-- Projection of `write_frame`: nothing is ever forwarded to the
constructor-injected primary output sink `_output`. -/
@[simp] lemma write_outputOut (s : NetLogState) (b : Nat) :
    (write s b).outputOut = s.outputOut :=
  (write_frame s b).2.2.2.2.2.2.2.1

/-- Projection of `write_frame`: `write` never persists configuration. -/
@[simp] lemma write_nvLog (s : NetLogState) (b : Nat) :
    (write s b).nvLog = s.nvLog :=
  (write_frame s b).2.2.2.2.2.2.2.2

/-- A paused `write` with room appends the byte to the pause buffer and
changes nothing else. -/
lemma write_paused_put (s : NetLogState) (b : Nat) (hp : s.isPaused = true)
    (hr : s.chBuffer.length < s.chBufferCap) :
    write s b = { s with chBuffer := s.chBuffer ++ [b] } := by
  simp [write, hp, hr]

/-- A paused `write` with a full buffer drops the byte: the state is
completely unchanged. -/
lemma write_paused_full (s : NetLogState) (b : Nat) (hp : s.isPaused = true)
    (hr : ¬ s.chBuffer.length < s.chBufferCap) :
    write s b = s := by
  simp [write, hp, hr]

/-- An unpaused `write` does not touch the pause buffer. -/
lemma write_unpaused_chBuffer (s : NetLogState) (b : Nat)
    (hp : s.isPaused = false) :
    (write s b).chBuffer = s.chBuffer := by
  simp only [write, hp, Bool.false_eq_true, if_false]
  split_ifs with hg hch
  · rw [eolStep_frame (assembleCh (serialEcho s b) b)]
    rw [assembleCh_frame (serialEcho s b) b]
    rw [serialEcho_frame s b]
  · rw [assembleCh_frame (serialEcho s b) b]
    rw [serialEcho_frame s b]
  · rw [serialEcho_frame s b]

/-- Feeding bytes while paused, all of which fit, just queues them. -/
lemma feedAll_paused (bs : List Nat) : ∀ s : NetLogState,
    s.isPaused = true → s.chBuffer.length + bs.length ≤ s.chBufferCap →
    feedAll s bs = { s with chBuffer := s.chBuffer ++ bs } := by
  induction bs with
  | nil => intro s hp _; simp [feedAll]
  | cons b rest ih =>
      intro s hp hcap
      have hr : s.chBuffer.length < s.chBufferCap := by
        simp at hcap; omega
      have h1 : feedAll s (b :: rest) = feedAll (write s b) rest := by
        simp [feedAll]
      rw [h1, write_paused_put s b hp hr, ih _ (by simp [hp]) (by simp; simp at hcap; omega)]
      simp

/-- Feeding bytes while paused with a full buffer drops all of them. -/
lemma feedAll_paused_full (bs : List Nat) : ∀ s : NetLogState,
    s.isPaused = true → s.chBuffer.length = s.chBufferCap →
    feedAll s bs = s := by
  induction bs with
  | nil => intro s _ _; simp [feedAll]
  | cons b rest ih =>
      intro s hp hfull
      have h1 : feedAll s (b :: rest) = feedAll (write s b) rest := by
        simp [feedAll]
      rw [h1, write_paused_full s b hp (by omega), ih s hp hfull]

/-- Unfolding `feedAll` on the empty byte list. -/
@[simp] lemma feedAll_nil (s : NetLogState) : feedAll s [] = s := rfl

/-- Unfolding `feedAll` on a byte followed by more bytes. -/
lemma feedAll_cons (s : NetLogState) (b : Nat) (bs : List Nat) :
    feedAll s (b :: bs) = feedAll (write s b) bs := by
  simp [feedAll]

/-- `feedAll` never changes the pause flag. -/
lemma feedAll_isPaused (bs : List Nat) : ∀ s : NetLogState,
    (feedAll s bs).isPaused = s.isPaused := by
  induction bs with
  | nil => intro s; simp
  | cons b rest ih => intro s; rw [feedAll_cons, ih, write_isPaused]

/-- `feedAll` never changes the configuration fields, the
persisted-config trace, or the primary-output trace. -/
lemma feedAll_frame (bs : List Nat) : ∀ s : NetLogState,
    (feedAll s bs).logToMQTT = s.logToMQTT ∧
    (feedAll s bs).logToHTTP = s.logToHTTP ∧
    (feedAll s bs).logToCommandSerial = s.logToCommandSerial ∧
    (feedAll s bs).logToSerial = s.logToSerial ∧
    (feedAll s bs).serialPort = s.serialPort ∧
    (feedAll s bs).loggingThreshold = s.loggingThreshold ∧
    (feedAll s bs).chBufferCap = s.chBufferCap ∧
    (feedAll s bs).outputOut = s.outputOut ∧
    (feedAll s bs).nvLog = s.nvLog := by
  induction bs with
  | nil => intro s; simp
  | cons b rest ih => intro s; rw [feedAll_cons]; simpa using ih (write s b)

/-- Feeding bytes while unpaused never touches the pause buffer. -/
lemma feedAll_unpaused_chBuffer (bs : List Nat) : ∀ s : NetLogState,
    s.isPaused = false → (feedAll s bs).chBuffer = s.chBuffer := by
  induction bs with
  | nil => intro s _; simp
  | cons b rest ih =>
      intro s hp
      rw [feedAll_cons, ih (write s b) (by rw [write_isPaused]; exact hp),
          write_unpaused_chBuffer s b hp]

/-- Splitting a fed byte sequence. -/
lemma feedAll_append (s : NetLogState) (bs cs : List Nat) :
    feedAll s (bs ++ cs) = feedAll (feedAll s bs) cs := by
  simp [feedAll, List.foldl_append]

/-- Stripping control characters ignores a trailing linefeed. -/
lemma stripCtl_append_newline (m : List Nat) :
    stripCtl (m ++ [10]) = stripCtl m := by
  simp [stripCtl]

/-! ## `write` in each line-assembly mode (unpaused, structured sink on) -/

/-- With no structured sink enabled, `write` stops after the serial
forward (NetLog.h lines 295-297). -/
lemma write_nostruct (s : NetLogState) (b : Nat) (hp : s.isPaused = false)
    (hm : s.logToMQTT = false) (hh : s.logToHTTP = false)
    (hc : s.logToCommandSerial = false) :
    write s b = serialEcho s b := by
  simp [write, hp, hm, hh, hc]

/-- With no structured sink enabled, feeding any byte sequence leaves the
whole line-assembly state and all structured traces unchanged. -/
lemma feedAll_nostruct (bs : List Nat) : ∀ s : NetLogState,
    s.isPaused = false → s.logToMQTT = false → s.logToHTTP = false →
    s.logToCommandSerial = false →
    (feedAll s bs).msgToLog = s.msgToLog ∧
    (feedAll s bs).firstChOnLine = s.firstChOnLine ∧
    (feedAll s bs).collectLineForLog = s.collectLineForLog ∧
    (feedAll s bs).curMsgLogLevel = s.curMsgLogLevel ∧
    (feedAll s bs).mqttSent = s.mqttSent ∧
    (feedAll s bs).cmdSent = s.cmdSent ∧
    (feedAll s bs).httpAttempts = s.httpAttempts := by
  induction bs with
  | nil => intro s _ _ _ _; simp
  | cons b rest ih =>
      intro s hp hm hh hc
      rw [feedAll_cons, write_nostruct s b hp hm hh hc]
      have := ih (serialEcho s b) (by simp [hp]) (by simp [hm]) (by simp [hh])
        (by simp [hc])
      simpa using this

/-- On the first character of a line (not a terminator), `write`
classifies and either starts collecting or skips the line. -/
lemma write_first (s : NetLogState) (b : Nat) (hp : s.isPaused = false)
    (hg : s.logToMQTT = true ∨ s.logToHTTP = true ∨ s.logToCommandSerial = true)
    (hf : s.firstChOnLine = true) (hb : b ≠ 10) :
    write s b = if msgLevelOf b ≤ s.loggingThreshold
      then { serialEcho s b with
              firstChOnLine := false,
              collectLineForLog := true,
              curMsgLogLevel := msgLevelOf b,
              msgToLog := [b] }
      else { serialEcho s b with firstChOnLine := false } := by
  simp only [write, hp, Bool.false_eq_true, if_false,
    serialEcho_logToMQTT, serialEcho_logToHTTP, serialEcho_logToCommandSerial]
  rw [if_neg (not_not_intro hg)]
  simp only [assembleCh, serialEcho_firstChOnLine, hf, if_true,
    serialEcho_loggingThreshold]
  rw [if_neg hb]
  split_ifs <;> simp

/-- While collecting, a non-terminator byte is appended when the text is
below the cap and dropped otherwise. -/
lemma write_collect (s : NetLogState) (b : Nat) (hp : s.isPaused = false)
    (hg : s.logToMQTT = true ∨ s.logToHTTP = true ∨ s.logToCommandSerial = true)
    (hf : s.firstChOnLine = false) (hcol : s.collectLineForLog = true)
    (hb : b ≠ 10) :
    write s b = if s.msgToLog.length < LOG_LINE_MAXLEN
      then { serialEcho s b with msgToLog := s.msgToLog ++ [b] }
      else serialEcho s b := by
  simp only [write, hp, Bool.false_eq_true, if_false,
    serialEcho_logToMQTT, serialEcho_logToHTTP, serialEcho_logToCommandSerial]
  rw [if_neg (not_not_intro hg)]
  simp only [assembleCh, serialEcho_firstChOnLine, hf, Bool.false_eq_true,
    if_false, serialEcho_collectLineForLog, hcol, if_true, serialEcho_msgToLog]
  rw [if_neg hb]
  split_ifs <;> simp

/-- While discarding (not collecting), a non-terminator byte has no
effect beyond the serial forward. -/
lemma write_discard (s : NetLogState) (b : Nat) (hp : s.isPaused = false)
    (hg : s.logToMQTT = true ∨ s.logToHTTP = true ∨ s.logToCommandSerial = true)
    (hf : s.firstChOnLine = false) (hcol : s.collectLineForLog = false)
    (hb : b ≠ 10) :
    write s b = serialEcho s b := by
  simp only [write, hp, Bool.false_eq_true, if_false,
    serialEcho_logToMQTT, serialEcho_logToHTTP, serialEcho_logToCommandSerial]
  rw [if_neg (not_not_intro hg)]
  simp only [assembleCh, serialEcho_firstChOnLine, hf, Bool.false_eq_true,
    if_false, serialEcho_collectLineForLog, hcol]
  rw [if_neg hb]

/-- Feeding non-terminator bytes while collecting accumulates text up to
the 250-character cap and touches no trace or mode field. -/
lemma feedAll_collect (bs : List Nat) : ∀ s : NetLogState,
    s.isPaused = false →
    (s.logToMQTT = true ∨ s.logToHTTP = true ∨ s.logToCommandSerial = true) →
    s.firstChOnLine = false → s.collectLineForLog = true →
    s.msgToLog.length ≤ LOG_LINE_MAXLEN → (∀ b ∈ bs, b ≠ 10) →
    (feedAll s bs).msgToLog = (s.msgToLog ++ bs).take LOG_LINE_MAXLEN ∧
    (feedAll s bs).firstChOnLine = false ∧
    (feedAll s bs).collectLineForLog = true ∧
    (feedAll s bs).curMsgLogLevel = s.curMsgLogLevel ∧
    (feedAll s bs).mqttSent = s.mqttSent ∧
    (feedAll s bs).cmdSent = s.cmdSent ∧
    (feedAll s bs).httpAttempts = s.httpAttempts := by
  induction bs with
  | nil =>
      intro s _ _ hf hcol hlen _
      simp [hf, hcol, List.take_of_length_le hlen]
  | cons b rest ih =>
      intro s hp hg hf hcol hlen hbs
      rw [feedAll_cons, write_collect s b hp hg hf hcol (hbs b (by simp))]
      by_cases hl : s.msgToLog.length < LOG_LINE_MAXLEN
      · rw [if_pos hl]
        have := ih { serialEcho s b with msgToLog := s.msgToLog ++ [b] }
          (by simp [hp]) (by simpa using hg) (by simp [hf]) (by simp [hcol])
          (by simpa using hl) (fun x hx => hbs x (by simp [hx]))
        simpa [List.append_assoc] using this
      · rw [if_neg hl]
        have hlen250 : s.msgToLog.length = LOG_LINE_MAXLEN := by omega
        have := ih (serialEcho s b)
          (by simp [hp]) (by simpa using hg) (by simp [hf]) (by simp [hcol])
          (by simp [hlen250]) (fun x hx => hbs x (by simp [hx]))
        have htake : ∀ tl : List Nat,
            (s.msgToLog ++ tl).take LOG_LINE_MAXLEN = s.msgToLog := by
          intro tl
          rw [List.take_append_eq_append_take, hlen250]
          simp [← hlen250]
        simpa [htake] using this

/-- Feeding non-terminator bytes while discarding changes nothing beyond
the serial forward. -/
lemma feedAll_discard (bs : List Nat) : ∀ s : NetLogState,
    s.isPaused = false →
    (s.logToMQTT = true ∨ s.logToHTTP = true ∨ s.logToCommandSerial = true) →
    s.firstChOnLine = false → s.collectLineForLog = false →
    (∀ b ∈ bs, b ≠ 10) →
    (feedAll s bs).msgToLog = s.msgToLog ∧
    (feedAll s bs).firstChOnLine = false ∧
    (feedAll s bs).collectLineForLog = false ∧
    (feedAll s bs).mqttSent = s.mqttSent ∧
    (feedAll s bs).cmdSent = s.cmdSent ∧
    (feedAll s bs).httpAttempts = s.httpAttempts := by
  induction bs with
  | nil => intro s _ _ hf hcol _; simp [hf, hcol]
  | cons b rest ih =>
      intro s hp hg hf hcol hbs
      rw [feedAll_cons, write_discard s b hp hg hf hcol (hbs b (by simp))]
      have := ih (serialEcho s b)
        (by simp [hp]) (by simpa using hg) (by simp [hf]) (by simp [hcol])
        (fun x hx => hbs x (by simp [hx]))
      simpa using this

/-- The terminator byte on a collected line: the (possibly capped) text,
with the terminator appended when below the cap and control characters
stripped, is handed to each enabled structured sink; the line state is
reset. -/
lemma write_eol_collect (s : NetLogState) (hp : s.isPaused = false)
    (hg : s.logToMQTT = true ∨ s.logToHTTP = true ∨ s.logToCommandSerial = true)
    (hf : s.firstChOnLine = false) (hcol : s.collectLineForLog = true) :
    (write s 10).mqttSent = s.mqttSent ++
      (if s.logToMQTT = true
       then [⟨s.curMsgLogLevel, stripCtl s.msgToLog⟩] else []) ∧
    (write s 10).cmdSent = s.cmdSent ++
      (if s.logToCommandSerial = true
       then [⟨s.curMsgLogLevel, stripCtl s.msgToLog⟩] else []) ∧
    (write s 10).httpAttempts = s.httpAttempts ++
      (if s.logToHTTP = true
       then [⟨s.curMsgLogLevel, stripCtl s.msgToLog⟩] else []) ∧
    (write s 10).msgToLog = [] ∧
    (write s 10).firstChOnLine = true ∧
    (write s 10).collectLineForLog = false := by
  simp only [write, hp, Bool.false_eq_true, if_false,
    serialEcho_logToMQTT, serialEcho_logToHTTP, serialEcho_logToCommandSerial]
  rw [if_neg (not_not_intro hg)]
  simp only [assembleCh, serialEcho_firstChOnLine, hf, Bool.false_eq_true,
    if_false, serialEcho_collectLineForLog, hcol, if_true, serialEcho_msgToLog,
    if_pos rfl]
  by_cases hl : s.msgToLog.length < LOG_LINE_MAXLEN
  · rw [if_pos hl]
    have hpos : 0 < (s.msgToLog ++ [10]).length := by simp
    rcases hm : s.logToMQTT <;> rcases hh : s.logToHTTP <;>
      rcases hc : s.logToCommandSerial <;>
      simp_all [eolStep, dispatchLine, stripCtl_append_newline]
  · rw [if_neg hl]
    have hpos : 0 < s.msgToLog.length := by
      simp only [LOG_LINE_MAXLEN] at hl; omega
    rcases hm : s.logToMQTT <;> rcases hh : s.logToHTTP <;>
      rcases hc : s.logToCommandSerial <;>
      simp_all [eolStep, dispatchLine]

/-- The terminator byte while discarding: only the first-char flag is
reset; nothing is dispatched. -/
lemma write_eol_discard (s : NetLogState) (hp : s.isPaused = false)
    (hg : s.logToMQTT = true ∨ s.logToHTTP = true ∨ s.logToCommandSerial = true)
    (hf : s.firstChOnLine = false) (hcol : s.collectLineForLog = false) :
    write s 10 = { serialEcho s 10 with
                    firstChOnLine := true,
                    collectLineForLog := false } := by
  simp only [write, hp, Bool.false_eq_true, if_false,
    serialEcho_logToMQTT, serialEcho_logToHTTP, serialEcho_logToCommandSerial]
  rw [if_neg (not_not_intro hg)]
  simp only [assembleCh, serialEcho_firstChOnLine, hf, Bool.false_eq_true,
    if_false, serialEcho_collectLineForLog, hcol, if_pos rfl]
  simp [eolStep, hcol]

/-- Feeding a single byte is a single `write`. -/
lemma feedAll_singleton (s : NetLogState) (b : Nat) :
    feedAll s [b] = write s b := by
  simp [feedAll]

/-- `readyState` projection: the configured threshold. -/
@[simp] lemma readyState_loggingThreshold (mqtt http cmd : Bool) (T : Int) :
    (readyState mqtt http cmd T).loggingThreshold = T := rfl

/-- `readyState` projection: the MQTT flag. -/
@[simp] lemma readyState_logToMQTT (mqtt http cmd : Bool) (T : Int) :
    (readyState mqtt http cmd T).logToMQTT = mqtt := rfl

/-- `readyState` projection: the HTTP flag. -/
@[simp] lemma readyState_logToHTTP (mqtt http cmd : Bool) (T : Int) :
    (readyState mqtt http cmd T).logToHTTP = http := rfl

/-- `readyState` projection: the command-serial flag. -/
@[simp] lemma readyState_logToCommandSerial (mqtt http cmd : Bool) (T : Int) :
    (readyState mqtt http cmd T).logToCommandSerial = cmd := rfl

/-- `readyState` projection: not paused. -/
@[simp] lemma readyState_isPaused (mqtt http cmd : Bool) (T : Int) :
    (readyState mqtt http cmd T).isPaused = false := rfl

/-- `readyState` projection: at a line boundary. -/
@[simp] lemma readyState_firstChOnLine (mqtt http cmd : Bool) (T : Int) :
    (readyState mqtt http cmd T).firstChOnLine = true := rfl

/-- `readyState` projection: not collecting. -/
@[simp] lemma readyState_collectLineForLog (mqtt http cmd : Bool) (T : Int) :
    (readyState mqtt http cmd T).collectLineForLog = false := rfl

/-- `readyState` projection: empty MQTT trace. -/
@[simp] lemma readyState_mqttSent (mqtt http cmd : Bool) (T : Int) :
    (readyState mqtt http cmd T).mqttSent = [] := rfl

/-- `readyState` projection: empty command-serial trace. -/
@[simp] lemma readyState_cmdSent (mqtt http cmd : Bool) (T : Int) :
    (readyState mqtt http cmd T).cmdSent = [] := rfl

/-- `readyState` projection: empty HTTP attempt trace. -/
@[simp] lemma readyState_httpAttempts (mqtt http cmd : Bool) (T : Int) :
    (readyState mqtt http cmd T).httpAttempts = [] := rfl

/-- `readyState` projection: empty collected text. -/
@[simp] lemma readyState_msgToLog (mqtt http cmd : Bool) (T : Int) :
    (readyState mqtt http cmd T).msgToLog = [] := rfl

/-- Feeding the rest of a line (no terminators) and then the terminator
while collecting: each enabled structured sink receives one record with
the current severity and the capped, stripped text. -/
lemma feed_tail_collect (mid : List Nat) (s : NetLogState)
    (hp : s.isPaused = false)
    (hg : s.logToMQTT = true ∨ s.logToHTTP = true ∨ s.logToCommandSerial = true)
    (hf : s.firstChOnLine = false) (hcol : s.collectLineForLog = true)
    (hlen : s.msgToLog.length ≤ LOG_LINE_MAXLEN) (hmid : ∀ b ∈ mid, b ≠ 10) :
    (feedAll s (mid ++ [10])).mqttSent = s.mqttSent ++
      (if s.logToMQTT = true
       then [⟨s.curMsgLogLevel,
              stripCtl ((s.msgToLog ++ mid).take LOG_LINE_MAXLEN)⟩]
       else []) ∧
    (feedAll s (mid ++ [10])).cmdSent = s.cmdSent ++
      (if s.logToCommandSerial = true
       then [⟨s.curMsgLogLevel,
              stripCtl ((s.msgToLog ++ mid).take LOG_LINE_MAXLEN)⟩]
       else []) ∧
    (feedAll s (mid ++ [10])).httpAttempts = s.httpAttempts ++
      (if s.logToHTTP = true
       then [⟨s.curMsgLogLevel,
              stripCtl ((s.msgToLog ++ mid).take LOG_LINE_MAXLEN)⟩]
       else []) ∧
    (feedAll s (mid ++ [10])).firstChOnLine = true ∧
    (feedAll s (mid ++ [10])).collectLineForLog = false := by
  rw [feedAll_append, feedAll_singleton]
  obtain ⟨hmsg, hfc, hcl, hcur, hmq, hcd, hht⟩ :=
    feedAll_collect mid s hp hg hf hcol hlen hmid
  obtain ⟨f1, f2, f3, _⟩ := feedAll_frame mid s
  obtain ⟨e1, e2, e3, _, e5, e6⟩ := write_eol_collect (feedAll s mid)
    (by rw [feedAll_isPaused]; exact hp)
    (by rw [f1, f2, f3]; exact hg) hfc hcl
  rw [e1, e2, e3, hmq, hcd, hht, f1, f2, f3, hcur, hmsg]
  exact ⟨rfl, rfl, rfl, e5, e6⟩

/-- Feeding the rest of a line (no terminators) and then the terminator
while discarding: no structured sink receives anything. -/
lemma feed_tail_discard (mid : List Nat) (s : NetLogState)
    (hp : s.isPaused = false)
    (hg : s.logToMQTT = true ∨ s.logToHTTP = true ∨ s.logToCommandSerial = true)
    (hf : s.firstChOnLine = false) (hcol : s.collectLineForLog = false)
    (hmid : ∀ b ∈ mid, b ≠ 10) :
    (feedAll s (mid ++ [10])).mqttSent = s.mqttSent ∧
    (feedAll s (mid ++ [10])).cmdSent = s.cmdSent ∧
    (feedAll s (mid ++ [10])).httpAttempts = s.httpAttempts ∧
    (feedAll s (mid ++ [10])).firstChOnLine = true ∧
    (feedAll s (mid ++ [10])).collectLineForLog = false := by
  rw [feedAll_append, feedAll_singleton]
  obtain ⟨hmsg, hfc, hcl, hmq, hcd, hht⟩ :=
    feedAll_discard mid s hp hg hf hcol hmid
  obtain ⟨f1, f2, f3, _⟩ := feedAll_frame mid s
  rw [write_eol_discard (feedAll s mid)
      (by rw [feedAll_isPaused]; exact hp)
      (by rw [f1, f2, f3]; exact hg) hfc hcl]
  refine ⟨?_, ?_, ?_, ?_, ?_⟩ <;> simp [hmq, hcd, hht]

/-- While unpaused with the serial sink on channel 0 enabled, each byte
reaches the global `Serial` object. -/
lemma write_serialOut_on (s : NetLogState) (b : Nat) (hp : s.isPaused = false)
    (hser : s.logToSerial = true) (hport : s.serialPort = 0) :
    (write s b).serialOut = s.serialOut ++ [b] := by
  have hse : (serialEcho s b).serialOut = s.serialOut ++ [b] := by
    simp [serialEcho, hser, hport]
  simp only [write, hp, Bool.false_eq_true, if_false]
  split_ifs with hg hch
  · rw [eolStep_frame (assembleCh (serialEcho s b) b)]
    rw [assembleCh_frame (serialEcho s b) b]
    exact hse
  · rw [assembleCh_frame (serialEcho s b) b]
    exact hse
  · exact hse

/-- While unpaused with the serial sink on channel 0 enabled, a byte
sequence is echoed to the global `Serial` object in full and in order. -/
lemma feedAll_serialOut_on (bs : List Nat) : ∀ s : NetLogState,
    s.isPaused = false → s.logToSerial = true → s.serialPort = 0 →
    (feedAll s bs).serialOut = s.serialOut ++ bs := by
  induction bs with
  | nil => intro s _ _ _; simp
  | cons b rest ih =>
      intro s hp hser hport
      rw [feedAll_cons,
          ih (write s b) (by rw [write_isPaused]; exact hp)
            (by rw [write_logToSerial]; exact hser)
            (by rw [write_serialPort]; exact hport),
          write_serialOut_on s b hp hser hport]
      simp

/-- Feeding one complete line from an arbitrary unpaused line-boundary
state with a structured sink enabled: each structured sink receives the
line iff the first byte's severity passes the threshold and that sink is
enabled, and the line state is reset for the next line. -/
lemma feed_line (s : NetLogState) (hp : s.isPaused = false)
    (hg : s.logToMQTT = true ∨ s.logToHTTP = true ∨ s.logToCommandSerial = true)
    (hf : s.firstChOnLine = true) (hcol : s.collectLineForLog = false)
    (c : Nat) (mid : List Nat)
    (hc : c ≠ 10) (hmid : ∀ b ∈ mid, b ≠ 10) :
    (feedAll s (c :: (mid ++ [10]))).mqttSent = s.mqttSent ++
      (if msgLevelOf c ≤ s.loggingThreshold ∧ s.logToMQTT = true
       then [⟨msgLevelOf c, stripCtl ((c :: mid).take LOG_LINE_MAXLEN)⟩]
       else []) ∧
    (feedAll s (c :: (mid ++ [10]))).cmdSent = s.cmdSent ++
      (if msgLevelOf c ≤ s.loggingThreshold ∧ s.logToCommandSerial = true
       then [⟨msgLevelOf c, stripCtl ((c :: mid).take LOG_LINE_MAXLEN)⟩]
       else []) ∧
    (feedAll s (c :: (mid ++ [10]))).httpAttempts = s.httpAttempts ++
      (if msgLevelOf c ≤ s.loggingThreshold ∧ s.logToHTTP = true
       then [⟨msgLevelOf c, stripCtl ((c :: mid).take LOG_LINE_MAXLEN)⟩]
       else []) ∧
    (feedAll s (c :: (mid ++ [10]))).firstChOnLine = true ∧
    (feedAll s (c :: (mid ++ [10]))).collectLineForLog = false := by
  rw [feedAll_cons, write_first s c hp hg hf hc]
  by_cases hlvl : msgLevelOf c ≤ s.loggingThreshold
  · rw [if_pos hlvl]
    obtain ⟨g1, g2, g3, g4, g5⟩ := feed_tail_collect mid
      { serialEcho s c with
          firstChOnLine := false,
          collectLineForLog := true,
          curMsgLogLevel := msgLevelOf c,
          msgToLog := [c] }
      (by simp [hp]) (by simpa using hg) rfl rfl
      (by simp [LOG_LINE_MAXLEN]) hmid
    rw [g1, g2, g3]
    refine ⟨?_, ?_, ?_, g4, g5⟩ <;> simp [hlvl]
  · rw [if_neg hlvl]
    obtain ⟨g1, g2, g3, g4, g5⟩ := feed_tail_discard mid
      { serialEcho s c with firstChOnLine := false }
      (by simp [hp]) (by simpa using hg) rfl (by simpa using hcol) hmid
    rw [g1, g2, g3]
    refine ⟨?_, ?_, ?_, g4, g5⟩ <;> simp [hlvl]

/-- Master dispatch lemma: feeding one complete line (first byte `c`,
middle bytes free of terminators, then the terminator) from a fresh
line boundary delivers the line to each structured sink exactly when the
first byte's severity passes the threshold and that sink is enabled; the
delivered text is the capped line with linefeeds and carriage returns
stripped. -/
lemma line_dispatch (mqtt http cmd : Bool) (T : Int) (c : Nat) (mid : List Nat)
    (hc : c ≠ 10) (hmid : ∀ b ∈ mid, b ≠ 10) :
    (feedAll (readyState mqtt http cmd T) (c :: (mid ++ [10]))).mqttSent =
      (if msgLevelOf c ≤ T ∧ mqtt = true
       then [⟨msgLevelOf c, stripCtl ((c :: mid).take LOG_LINE_MAXLEN)⟩]
       else []) ∧
    (feedAll (readyState mqtt http cmd T) (c :: (mid ++ [10]))).cmdSent =
      (if msgLevelOf c ≤ T ∧ cmd = true
       then [⟨msgLevelOf c, stripCtl ((c :: mid).take LOG_LINE_MAXLEN)⟩]
       else []) ∧
    (feedAll (readyState mqtt http cmd T) (c :: (mid ++ [10]))).httpAttempts =
      (if msgLevelOf c ≤ T ∧ http = true
       then [⟨msgLevelOf c, stripCtl ((c :: mid).take LOG_LINE_MAXLEN)⟩]
       else []) := by
  by_cases hgate : mqtt = true ∨ http = true ∨ cmd = true
  · rw [feedAll_cons]
    by_cases hlvl : msgLevelOf c ≤ T
    · have hw : write (readyState mqtt http cmd T) c =
          { readyState mqtt http cmd T with
              serialOut := [c], firstChOnLine := false,
              collectLineForLog := true, curMsgLogLevel := msgLevelOf c,
              msgToLog := [c] } := by
        rw [write_first (readyState mqtt http cmd T) c rfl hgate rfl hc]
        simp only [readyState_loggingThreshold]
        rw [if_pos hlvl]
        simp [serialEcho, readyState, initState]
      rw [hw]
      obtain ⟨g1, g2, g3, _, _⟩ := feed_tail_collect mid
        { readyState mqtt http cmd T with
            serialOut := [c], firstChOnLine := false,
            collectLineForLog := true, curMsgLogLevel := msgLevelOf c,
            msgToLog := [c] }
        rfl hgate rfl rfl (by simp [LOG_LINE_MAXLEN]) hmid
      rw [g1, g2, g3]
      simp [hlvl]
    · have hw : write (readyState mqtt http cmd T) c =
          { readyState mqtt http cmd T with
              serialOut := [c], firstChOnLine := false } := by
        rw [write_first (readyState mqtt http cmd T) c rfl hgate rfl hc]
        simp only [readyState_loggingThreshold]
        rw [if_neg hlvl]
        simp [serialEcho, readyState, initState]
      rw [hw]
      obtain ⟨g1, g2, g3, _, _⟩ := feed_tail_discard mid
        { readyState mqtt http cmd T with
            serialOut := [c], firstChOnLine := false }
        rfl hgate rfl rfl hmid
      rw [g1, g2, g3]
      simp [hlvl]
  · have hm : mqtt = false := by
      rcases mqtt with _ | _ <;> simp_all
    have hh : http = false := by
      rcases http with _ | _ <;> simp_all
    have hcmd : cmd = false := by
      rcases cmd with _ | _ <;> simp_all
    obtain ⟨_, _, _, _, h5, h6, h7⟩ :=
      feedAll_nostruct (c :: (mid ++ [10])) (readyState mqtt http cmd T)
        rfl (by simp [hm]) (by simp [hh]) (by simp [hcmd])
    rw [h5, h6, h7]
    simp [hm, hh, hcmd]

/-- `resume` on a paused object clears the flag and replays the buffered
bytes, oldest first, through the normal ingestion path. -/
lemma resume_of_paused (s : NetLogState) (hp : s.isPaused = true) :
    resume s = feedAll { s with isPaused := false, chBuffer := [] } s.chBuffer := by
  simp [resume, hp, handleLoggedDuringPause]

/-- `pause` projection: the pause flag is set. -/
@[simp] lemma pause_isPaused (s : NetLogState) (t : Nat) :
    (pause s t).isPaused = true := rfl

/-- `pause` projection: the pause buffer is untouched. -/
@[simp] lemma pause_chBuffer (s : NetLogState) (t : Nat) :
    (pause s t).chBuffer = s.chBuffer := rfl

/-- `pause` projection: the buffer capacity is untouched. -/
@[simp] lemma pause_chBufferCap (s : NetLogState) (t : Nat) :
    (pause s t).chBufferCap = s.chBufferCap := rfl

/-- `pause` projection: the first-char flag is untouched. -/
@[simp] lemma pause_firstChOnLine (s : NetLogState) (t : Nat) :
    (pause s t).firstChOnLine = s.firstChOnLine := rfl

/-- `pause` projection: the collecting flag is untouched. -/
@[simp] lemma pause_collectLineForLog (s : NetLogState) (t : Nat) :
    (pause s t).collectLineForLog = s.collectLineForLog := rfl

/-- `pause` projection: the MQTT enable flag is untouched. -/
@[simp] lemma pause_logToMQTT (s : NetLogState) (t : Nat) :
    (pause s t).logToMQTT = s.logToMQTT := rfl

/-- `pause` projection: the severity threshold is untouched. -/
@[simp] lemma pause_loggingThreshold (s : NetLogState) (t : Nat) :
    (pause s t).loggingThreshold = s.loggingThreshold := rfl

/-- `pause` projection: the serial enable flag is untouched. -/
@[simp] lemma pause_logToSerial (s : NetLogState) (t : Nat) :
    (pause s t).logToSerial = s.logToSerial := rfl

/-- `pause` projection: the serial channel id is untouched. -/
@[simp] lemma pause_serialPort (s : NetLogState) (t : Nat) :
    (pause s t).serialPort = s.serialPort := rfl

/-- `pause` projection: the MQTT trace is untouched. -/
@[simp] lemma pause_mqttSent (s : NetLogState) (t : Nat) :
    (pause s t).mqttSent = s.mqttSent := rfl

/-- `pause` projection: the serial trace is untouched. -/
@[simp] lemma pause_serialOut (s : NetLogState) (t : Nat) :
    (pause s t).serialOut = s.serialOut := rfl

/-- Projection of the resumed-state update used by `resume`. -/
lemma resetUpd_isPaused (s : NetLogState) :
    ({ s with isPaused := false, chBuffer := [] } : NetLogState).isPaused = false := rfl

/-- Projection of the resumed-state update used by `resume`. -/
lemma resetUpd_chBuffer (s : NetLogState) :
    ({ s with isPaused := false, chBuffer := [] } : NetLogState).chBuffer = [] := rfl

/-- Projection of the resumed-state update used by `resume`. -/
lemma resetUpd_firstChOnLine (s : NetLogState) :
    ({ s with isPaused := false, chBuffer := [] } : NetLogState).firstChOnLine = s.firstChOnLine := rfl

/-- Projection of the resumed-state update used by `resume`. -/
lemma resetUpd_collectLineForLog (s : NetLogState) :
    ({ s with isPaused := false, chBuffer := [] } : NetLogState).collectLineForLog = s.collectLineForLog := rfl

/-- Projection of the resumed-state update used by `resume`. -/
lemma resetUpd_logToMQTT (s : NetLogState) :
    ({ s with isPaused := false, chBuffer := [] } : NetLogState).logToMQTT = s.logToMQTT := rfl

/-- Projection of the resumed-state update used by `resume`. -/
lemma resetUpd_loggingThreshold (s : NetLogState) :
    ({ s with isPaused := false, chBuffer := [] } : NetLogState).loggingThreshold = s.loggingThreshold := rfl

/-- Projection of the resumed-state update used by `resume`. -/
lemma resetUpd_logToSerial (s : NetLogState) :
    ({ s with isPaused := false, chBuffer := [] } : NetLogState).logToSerial = s.logToSerial := rfl

/-- Projection of the resumed-state update used by `resume`. -/
lemma resetUpd_serialPort (s : NetLogState) :
    ({ s with isPaused := false, chBuffer := [] } : NetLogState).serialPort = s.serialPort := rfl

/-- Projection of the resumed-state update used by `resume`. -/
lemma resetUpd_mqttSent (s : NetLogState) :
    ({ s with isPaused := false, chBuffer := [] } : NetLogState).mqttSent = s.mqttSent := rfl

/-- Projection of the resumed-state update used by `resume`. -/
lemma resetUpd_serialOut (s : NetLogState) :
    ({ s with isPaused := false, chBuffer := [] } : NetLogState).serialOut = s.serialOut := rfl

/-- Projection of the buffered-byte update used by a paused `write`. -/
lemma bufUpd_isPaused (s : NetLogState) (v : List Nat) :
    ({ s with chBuffer := v } : NetLogState).isPaused = s.isPaused := rfl

/-- Projection of the buffered-byte update used by a paused `write`. -/
lemma bufUpd_firstChOnLine (s : NetLogState) (v : List Nat) :
    ({ s with chBuffer := v } : NetLogState).firstChOnLine = s.firstChOnLine := rfl

/-- Projection of the buffered-byte update used by a paused `write`. -/
lemma bufUpd_collectLineForLog (s : NetLogState) (v : List Nat) :
    ({ s with chBuffer := v } : NetLogState).collectLineForLog = s.collectLineForLog := rfl

/-- Projection of the buffered-byte update used by a paused `write`. -/
lemma bufUpd_logToMQTT (s : NetLogState) (v : List Nat) :
    ({ s with chBuffer := v } : NetLogState).logToMQTT = s.logToMQTT := rfl

/-- Projection of the buffered-byte update used by a paused `write`. -/
lemma bufUpd_loggingThreshold (s : NetLogState) (v : List Nat) :
    ({ s with chBuffer := v } : NetLogState).loggingThreshold = s.loggingThreshold := rfl

/-- Projection of the buffered-byte update used by a paused `write`. -/
lemma bufUpd_logToSerial (s : NetLogState) (v : List Nat) :
    ({ s with chBuffer := v } : NetLogState).logToSerial = s.logToSerial := rfl

/-- Projection of the buffered-byte update used by a paused `write`. -/
lemma bufUpd_serialPort (s : NetLogState) (v : List Nat) :
    ({ s with chBuffer := v } : NetLogState).serialPort = s.serialPort := rfl

/-- Projection of the buffered-byte update used by a paused `write`. -/
lemma bufUpd_mqttSent (s : NetLogState) (v : List Nat) :
    ({ s with chBuffer := v } : NetLogState).mqttSent = s.mqttSent := rfl

/-- Projection of the buffered-byte update used by a paused `write`. -/
lemma bufUpd_serialOut (s : NetLogState) (v : List Nat) :
    ({ s with chBuffer := v } : NetLogState).serialOut = s.serialOut := rfl

/-! ## Claim theorems -/

/-- C1: for every severity threshold T and every completed log line whose
first character maps to severity S, the line is handed to the MQTT
publish channel iff S is at most T and that sink is enabled, and to the
command channel iff S is at most T and that sink is enabled; each
condition mentions only its own sink's flag, so disabling one structured
sink never suppresses delivery to the other. -/
theorem claim_C1_structured_sink_threshold_iff (mqtt http cmd : Bool)
    (T : Int) (c : Nat) (mid : List Nat)
    (hc : c ≠ 10) (hmid : ∀ b ∈ mid, b ≠ 10) :
    (feedAll (readyState mqtt http cmd T) (c :: (mid ++ [10]))).mqttSent =
      (if msgLevelOf c ≤ T ∧ mqtt = true
       then [⟨msgLevelOf c, stripCtl ((c :: mid).take LOG_LINE_MAXLEN)⟩]
       else []) ∧
    (feedAll (readyState mqtt http cmd T) (c :: (mid ++ [10]))).cmdSent =
      (if msgLevelOf c ≤ T ∧ cmd = true
       then [⟨msgLevelOf c, stripCtl ((c :: mid).take LOG_LINE_MAXLEN)⟩]
       else []) :=
  ⟨(line_dispatch mqtt http cmd T c mid hc hmid).1,
   (line_dispatch mqtt http cmd T c mid hc hmid).2.1⟩

/-- Witness for C1: the WARNING line `Wab\n` at threshold VERBOSE with
only MQTT enabled reaches MQTT and not the command channel. -/
theorem claim_C1_structured_sink_threshold_iff_witness :
    (feedAll (readyState true false false LOG_LEVEL_VERBOSE)
      (87 :: ([97, 98] ++ [10]))).mqttSent =
      [⟨LOG_LEVEL_WARNING, [87, 97, 98]⟩] ∧
    (feedAll (readyState true false false LOG_LEVEL_VERBOSE)
      (87 :: ([97, 98] ++ [10]))).cmdSent = [] := by
  have h := claim_C1_structured_sink_threshold_iff true false false
    LOG_LEVEL_VERBOSE 87 [97, 98] (by decide) (by decide)
  simpa using h

set_option maxRecDepth 40000 in
/-- Counterexample to C9: the claim quantifies over all lines of 300
non-terminator characters, but carriage returns (13) are non-terminator
bytes that the code strips from the collected text before dispatch: the
line `W` followed by 299 carriage returns and a linefeed is dispatched
with 1 character of text, not 250. -/
theorem claim_C9_counterexample :
    ((feedAll (readyState true false false 6)
       (87 :: (List.replicate 299 13 ++ [10]))).mqttSent.map
         (fun r => r.msg.length)) = [1] := by decide

/-- C9: a line of 300 non-terminator, non-carriage-return characters
followed by a linefeed, collected (severity passes the threshold, a
structured sink enabled), is dispatched with exactly 250 characters of
text: the first byte plus subsequent bytes accumulate only below the
250-character cap and the rest of the line is dropped. -/
theorem claim_C9_line_cap (c : Nat) (mid : List Nat) (T : Int)
    (hc : c ≠ 10) (hlen : mid.length = 299)
    (hclean : ∀ b ∈ c :: mid, b ≠ 10 ∧ b ≠ 13)
    (hlvl : msgLevelOf c ≤ T) :
    (feedAll (readyState true false false T) (c :: (mid ++ [10]))).mqttSent
      = [⟨msgLevelOf c, (c :: mid).take LOG_LINE_MAXLEN⟩] ∧
    ((c :: mid).take LOG_LINE_MAXLEN).length = LOG_LINE_MAXLEN := by
  have h := (line_dispatch true false false T c mid hc
    (fun b hb => (hclean b (by simp [hb])).1)).1
  rw [if_pos ⟨hlvl, rfl⟩] at h
  have hstrip : stripCtl ((c :: mid).take LOG_LINE_MAXLEN)
      = (c :: mid).take LOG_LINE_MAXLEN := by
    rw [stripCtl, List.filter_eq_self]
    intro b hb
    obtain ⟨h10, h13⟩ := hclean b (List.take_subset _ _ hb)
    simp [h10, h13]
  refine ⟨by rw [h, hstrip], ?_⟩
  rw [List.length_take]
  simp [hlen, LOG_LINE_MAXLEN]

set_option maxRecDepth 40000 in
/-- Witness for C9: the byte `W` followed by 299 copies of `a` and a
linefeed is dispatched with exactly 250 characters. -/
theorem claim_C9_line_cap_witness :
    (feedAll (readyState true false false 6)
      (87 :: (List.replicate 299 97 ++ [10]))).mqttSent
      = [⟨msgLevelOf 87, (87 :: List.replicate 299 97).take LOG_LINE_MAXLEN⟩] ∧
    ((87 :: List.replicate 299 97).take LOG_LINE_MAXLEN).length
      = LOG_LINE_MAXLEN :=
  claim_C9_line_cap 87 (List.replicate 299 97) 6 (by decide) (by decide)
    (by decide) (by decide)

/-- Counterexample to C2: the claim says a first byte outside the
F/E/W/N/T/V table yields SILENT and the line is then NOT collected and
nothing is dispatched, for every threshold.  In the code SILENT is 0 and
the collection test is `msgLevel <= threshold`, so with MQTT enabled at
threshold VERBOSE the line `x\n` (first byte 120, unmapped) IS collected
and dispatched with numeric severity 0; moreover the raw byte value 2 is
mapped to ERROR by the switch, not to SILENT. -/
theorem claim_C2_counterexample :
    (feedAll (readyState true false false LOG_LEVEL_VERBOSE) [120, 10]).mqttSent
      = [⟨LOG_LEVEL_SILENT, [120]⟩] ∧
    msgLevelOf 2 = LOG_LEVEL_ERROR := by
  exact ⟨by decide, by decide⟩

/-- C2 as amended: the first byte maps F or 1 to FATAL, E or 2 to ERROR,
W or 3 to WARNING, N or 4 to NOTICE, T or 5 to TRACE, V or 6 to VERBOSE,
anything else to SILENT = 0; and because every configured threshold is
at least 0, a line whose first byte maps to SILENT is still collected
and dispatched (with numeric severity 0) to the enabled structured
sinks. -/
theorem claim_C2_amended (T : Int) (b : Nat) (hT : 0 ≤ T)
    (hb0 : msgLevelOf b = LOG_LEVEL_SILENT) (hb10 : b ≠ 10) (hb13 : b ≠ 13) :
    (feedAll (readyState true false false T) [b, 10]).mqttSent
      = [⟨LOG_LEVEL_SILENT, [b]⟩] ∧
    msgLevelOf 1 = LOG_LEVEL_FATAL ∧ msgLevelOf 2 = LOG_LEVEL_ERROR ∧
    msgLevelOf 3 = LOG_LEVEL_WARNING ∧ msgLevelOf 4 = LOG_LEVEL_NOTICE ∧
    msgLevelOf 5 = LOG_LEVEL_TRACE ∧ msgLevelOf 6 = LOG_LEVEL_VERBOSE := by
  have h := (line_dispatch true false false T b [] hb10 (by simp)).1
  rw [if_pos ⟨by rw [hb0]; exact hT, rfl⟩] at h
  have hstrip : stripCtl (([b] : List Nat).take LOG_LINE_MAXLEN) = [b] := by
    simp [stripCtl, LOG_LINE_MAXLEN, hb10, hb13]
  refine ⟨?_, by decide, by decide, by decide, by decide, by decide, by decide⟩
  have hin : (b :: (([] : List Nat) ++ [10])) = [b, 10] := rfl
  rw [← hin, h, hstrip, hb0]

/-- Witness for C2 as amended: the unmapped byte `x` (120) at threshold
VERBOSE is collected and dispatched with severity 0. -/
theorem claim_C2_amended_witness :
    (feedAll (readyState true false false LOG_LEVEL_VERBOSE) [120, 10]).mqttSent
      = [⟨LOG_LEVEL_SILENT, [120]⟩] ∧
    msgLevelOf 1 = LOG_LEVEL_FATAL ∧ msgLevelOf 2 = LOG_LEVEL_ERROR ∧
    msgLevelOf 3 = LOG_LEVEL_WARNING ∧ msgLevelOf 4 = LOG_LEVEL_NOTICE ∧
    msgLevelOf 5 = LOG_LEVEL_TRACE ∧ msgLevelOf 6 = LOG_LEVEL_VERBOSE :=
  claim_C2_amended LOG_LEVEL_VERBOSE 120 (by decide) (by decide) (by decide)
    (by decide)

/-- Counterexample to C6: the claim says that when the terminator is
itself the first byte of a line, no log line is emitted to any
structured sink.  In the code the lone linefeed is classified SILENT,
collected (SILENT = 0 passes every threshold at least 0), and the
collected text is the linefeed itself, so the emptiness check
`_msgToLog.length() > 0` (which runs before the linefeed is stripped)
passes and a record with empty text IS handed to the enabled sinks. -/
theorem claim_C6_counterexample :
    (write (readyState true false false LOG_LEVEL_VERBOSE) 10).mqttSent
      = [⟨LOG_LEVEL_SILENT, []⟩] := by decide

/-- C6 as amended: when the terminator is the first byte of a line and
the threshold is at least 0, the line is collected with text consisting
of the terminator itself, and a record with severity SILENT and empty
(stripped) text is emitted to each enabled structured sink; in all cases
the terminator resets the first-byte-of-line and collecting state. -/
theorem claim_C6_amended (mqtt http cmd : Bool) (T : Int) (hT : 0 ≤ T) :
    (write (readyState mqtt http cmd T) 10).mqttSent =
      (if mqtt = true then [⟨LOG_LEVEL_SILENT, []⟩] else []) ∧
    (write (readyState mqtt http cmd T) 10).cmdSent =
      (if cmd = true then [⟨LOG_LEVEL_SILENT, []⟩] else []) ∧
    (write (readyState mqtt http cmd T) 10).firstChOnLine = true ∧
    (write (readyState mqtt http cmd T) 10).collectLineForLog = false := by
  rcases mqtt with _ | _ <;> rcases http with _ | _ <;> rcases cmd with _ | _ <;>
    simp [write, serialEcho, assembleCh, eolStep, dispatchLine, stripCtl,
      readyState, initState, msgLevelOf, LOG_LEVEL_SILENT, LOG_LEVEL_FATAL,
      LOG_LEVEL_ERROR, LOG_LEVEL_WARNING, LOG_LEVEL_NOTICE, LOG_LEVEL_TRACE,
      LOG_LEVEL_VERBOSE, LOG_LINE_MAXLEN, hT]

/-- Witness for C6 as amended: with MQTT and command-serial enabled at
threshold 0, a lone linefeed emits one empty record to each sink and
resets the line state. -/
theorem claim_C6_amended_witness :
    (write (readyState true false true 0) 10).mqttSent =
      [⟨LOG_LEVEL_SILENT, []⟩] ∧
    (write (readyState true false true 0) 10).cmdSent =
      [⟨LOG_LEVEL_SILENT, []⟩] ∧
    (write (readyState true false true 0) 10).firstChOnLine = true ∧
    (write (readyState true false true 0) 10).collectLineForLog = false := by
  have h := claim_C6_amended true false true 0 (by decide)
  simpa using h

/-- C3 (code bug): the source's own comment ("Logging goes to this sink
always", NetLog.h lines 28-29) and the claim say every non-paused byte is
forwarded unconditionally to the primary output sink `_output`.  In fact
`write` never references `_output` at all — its trace stays empty in
every state — and the forward that does exist goes to the global
`Serial` object, gated on `_logToSerial` and `_serialPort == 0`; with the
serial flag cleared, or with a nonzero serial channel id, an ingested
byte reaches no output sink. -/
theorem claim_C3_primary_sink_code_bug :
    (∀ (s : NetLogState) (ch : Nat), (write s ch).outputOut = s.outputOut) ∧
    (write { readyState true false false LOG_LEVEL_VERBOSE with
              logToSerial := false } 65).serialOut = [] ∧
    (write { readyState true false false LOG_LEVEL_VERBOSE with
              serialPort := 1 } 65).serialOut = [] :=
  ⟨fun s ch => write_outputOut s ch, by decide, by decide⟩

/-- C10: while not paused and with the MQTT, HTTP and command-serial
sinks all disabled, `write` leaves the entire line-assembly state and the
pause buffer unchanged. -/
theorem claim_C10_disabled_sinks_frame (s : NetLogState) (ch : Nat)
    (hp : s.isPaused = false) (hm : s.logToMQTT = false)
    (hh : s.logToHTTP = false) (hc : s.logToCommandSerial = false) :
    (write s ch).firstChOnLine = s.firstChOnLine ∧
    (write s ch).collectLineForLog = s.collectLineForLog ∧
    (write s ch).msgToLog = s.msgToLog ∧
    (write s ch).curMsgLogLevel = s.curMsgLogLevel ∧
    (write s ch).chBuffer = s.chBuffer := by
  rw [write_nostruct s ch hp hm hh hc]
  simp

/-- Witness for C10: a fresh object with every structured sink disabled
keeps its line state over a `W` byte. -/
theorem claim_C10_disabled_sinks_frame_witness :
    (write (readyState false false false 0) 87).firstChOnLine =
      (readyState false false false 0).firstChOnLine ∧
    (write (readyState false false false 0) 87).collectLineForLog =
      (readyState false false false 0).collectLineForLog ∧
    (write (readyState false false false 0) 87).msgToLog =
      (readyState false false false 0).msgToLog ∧
    (write (readyState false false false 0) 87).curMsgLogLevel =
      (readyState false false false 0).curMsgLogLevel ∧
    (write (readyState false false false 0) 87).chBuffer =
      (readyState false false false 0).chBuffer :=
  claim_C10_disabled_sinks_frame (readyState false false false 0) 87
    rfl rfl rfl rfl

/-- C7: a paused object whose elapsed time at a `service` tick exceeds
the configured pause duration is resumed by that very tick (no explicit
`resume` call, no flow-control byte): the tick clears the paused state
and drains the whole pause buffer back through the normal ingestion
path. -/
theorem claim_C7_pause_timeout_resume (s : NetLogState) (nowMs x : Nat)
    (hp : s.isPaused = true)
    (hto : isTimeout nowMs s.pauseStartedMs s.pauseTimeMs)
    (hx1 : x ≠ ASCII_XOFF) (hx2 : x ≠ ASCII_XON) :
    service s nowMs x =
      feedAll { s with isPaused := false, chBuffer := [] } s.chBuffer ∧
    (service s nowMs x).isPaused = false ∧
    (service s nowMs x).chBuffer = [] := by
  have h1 : service s nowMs x =
      feedAll { s with isPaused := false, chBuffer := [] } s.chBuffer := by
    simp only [service, if_neg hx1, if_neg hx2]
    rw [if_pos ⟨hp, hto⟩]
    simp [handleLoggedDuringPause]
  refine ⟨h1, ?_, ?_⟩
  · rw [h1, feedAll_isPaused]
  · rw [h1, feedAll_unpaused_chBuffer _ _ rfl]

/-- Witness for C7: a paused object with pause duration 100 ms, paused at
time 0 holding one byte, serviced at time 101 with no flow-control byte,
resumes and drains. -/
theorem claim_C7_pause_timeout_resume_witness :
    timeoutDemoState.isPaused = true ∧
    isTimeout 101 timeoutDemoState.pauseStartedMs timeoutDemoState.pauseTimeMs ∧
    (service timeoutDemoState 101 0).isPaused = false ∧
    (service timeoutDemoState 101 0).chBuffer = [] := by
  refine ⟨rfl, by decide, ?_, ?_⟩
  · exact (claim_C7_pause_timeout_resume timeoutDemoState 101 0 rfl
      (by decide) (by decide) (by decide)).2.1
  · exact (claim_C7_pause_timeout_resume timeoutDemoState 101 0 rfl
      (by decide) (by decide) (by decide)).2.2

/-- C5: the pause buffer's count never exceeds its capacity (counts are
naturals, so nonnegativity is inherent in the model); a paused write on a
full buffer leaves the state — in particular every retained byte —
completely unchanged; and after any further writes against the full
buffer, `resume` drains exactly the retained oldest bytes through the
normal ingestion path, never the dropped ones. -/
theorem claim_C5_pause_buffer_invariant (s : NetLogState) (b : Nat)
    (bs : List Nat) (hp : s.isPaused = true)
    (hfull : s.chBuffer.length = s.chBufferCap) :
    (∀ (s' : NetLogState) (b' : Nat), s'.chBuffer.length ≤ s'.chBufferCap →
      (write s' b').chBuffer.length ≤ (write s' b').chBufferCap) ∧
    write s b = s ∧
    resume (feedAll s bs) =
      feedAll { s with isPaused := false, chBuffer := [] } s.chBuffer := by
  refine ⟨?_, ?_, ?_⟩
  · intro s' b' hle
    rw [write_chBufferCap]
    cases hps : s'.isPaused with
    | false => rw [write_unpaused_chBuffer s' b' hps]; exact hle
    | true =>
        by_cases hr : s'.chBuffer.length < s'.chBufferCap
        · rw [write_paused_put s' b' hps hr]
          simp only [List.length_append, List.length_cons, List.length_nil]
          omega
        · rw [write_paused_full s' b' hps hr]; exact hle
  · exact write_paused_full s b hp (by omega)
  · rw [feedAll_paused_full bs s hp hfull, resume_of_paused s hp]

/-- Witness for C5: a full capacity-3 buffer drops the byte 68, and
resuming after two more dropped bytes drains exactly the retained three
bytes. -/
theorem claim_C5_pause_buffer_invariant_witness :
    fullPausedState.isPaused = true ∧
    fullPausedState.chBuffer.length = fullPausedState.chBufferCap ∧
    ((∀ (s' : NetLogState) (b' : Nat),
        s'.chBuffer.length ≤ s'.chBufferCap →
        (write s' b').chBuffer.length ≤ (write s' b').chBufferCap) ∧
      write fullPausedState 68 = fullPausedState ∧
      resume (feedAll fullPausedState [68, 69]) =
        feedAll { fullPausedState with isPaused := false, chBuffer := [] }
          fullPausedState.chBuffer) :=
  ⟨rfl, by decide,
   claim_C5_pause_buffer_invariant fullPausedState 68 [68, 69] rfl (by decide)⟩

/-- C4: the bytes of the WARNING line (87 97 98 99 10, "Wabc" plus
linefeed) ingested live, then `pause`, then the bytes of the ERROR line
(69 100 101 102 10, "Edef" plus linefeed), then `resume`, with buffer
capacity at least 10: the buffered bytes are replayed through the normal
ingestion path (the last conjunct) in FIFO order, so the WARNING line is
dispatched before the ERROR line, the serial output carries all ten
bytes exactly once in order, and the buffer ends empty. -/
theorem claim_C4_pause_resume_fifo (cap t : Nat) (hcap : 10 ≤ cap) :
    (resume (feedAll (pause (feedAll (pauseDemoState cap)
        [87, 97, 98, 99, 10]) t) [69, 100, 101, 102, 10])).mqttSent =
      [⟨LOG_LEVEL_WARNING, [87, 97, 98, 99]⟩,
       ⟨LOG_LEVEL_ERROR, [69, 100, 101, 102]⟩] ∧
    (resume (feedAll (pause (feedAll (pauseDemoState cap)
        [87, 97, 98, 99, 10]) t) [69, 100, 101, 102, 10])).serialOut =
      [87, 97, 98, 99, 10, 69, 100, 101, 102, 10] ∧
    (resume (feedAll (pause (feedAll (pauseDemoState cap)
        [87, 97, 98, 99, 10]) t) [69, 100, 101, 102, 10])).chBuffer = [] ∧
    resume (feedAll (pause (feedAll (pauseDemoState cap)
        [87, 97, 98, 99, 10]) t) [69, 100, 101, 102, 10]) =
      feedAll { feedAll (pause (feedAll (pauseDemoState cap)
          [87, 97, 98, 99, 10]) t) [69, 100, 101, 102, 10] with
            isPaused := false, chBuffer := [] }
        [69, 100, 101, 102, 10] := by
  set s1 := feedAll (pauseDemoState cap) [87, 97, 98, 99, 10] with hs1
  set s2 := pause s1 t with hs2
  set X := feedAll s2 [69, 100, 101, 102, 10] with hX
  obtain ⟨m1, _, _, fc1, cl1⟩ := feed_line (pauseDemoState cap) rfl
    (Or.inl rfl) rfl rfl 87 [97, 98, 99] (by decide) (by decide)
  rw [show (87 :: ([97, 98, 99] ++ [10])) = [87, 97, 98, 99, 10] from rfl,
      ← hs1] at m1 fc1 cl1
  rw [show (pauseDemoState cap).loggingThreshold = LOG_LEVEL_VERBOSE from rfl,
      show (pauseDemoState cap).logToMQTT = true from rfl] at m1
  rw [if_pos (⟨by decide, rfl⟩ :
    msgLevelOf 87 ≤ LOG_LEVEL_VERBOSE ∧ (true : Bool) = true)] at m1
  have m1h : s1.mqttSent = [⟨LOG_LEVEL_WARNING, [87, 97, 98, 99]⟩] := by
    rw [m1]; rfl
  have su1 : s1.serialOut = [87, 97, 98, 99, 10] := by
    rw [hs1, feedAll_serialOut_on _ _ rfl rfl rfl]; rfl
  have cb1 : s1.chBuffer = [] := by
    rw [hs1, feedAll_unpaused_chBuffer _ _ rfl]; rfl
  have p2 : s2.isPaused = true := by rw [hs2, pause_isPaused]
  have cb2 : s2.chBuffer = [] := by rw [hs2, pause_chBuffer]; exact cb1
  have cap2 : s2.chBufferCap = cap := by
    rw [hs2, pause_chBufferCap, hs1, (feedAll_frame _ _).2.2.2.2.2.2.1]; rfl
  have hfp := feedAll_paused [69, 100, 101, 102, 10] s2 p2
    (by rw [cb2, cap2]; show (0 : Nat) + 5 ≤ cap; omega)
  rw [← hX] at hfp
  have Xp : X.isPaused = true := by rw [hX, feedAll_isPaused]; exact p2
  have Xbuf : X.chBuffer = [69, 100, 101, 102, 10] := by
    rw [hfp]
    show s2.chBuffer ++ [69, 100, 101, 102, 10] = [69, 100, 101, 102, 10]
    rw [cb2]; rfl
  have hres := resume_of_paused X Xp
  rw [Xbuf] at hres
  set Y := { X with isPaused := false, chBuffer := [] } with hY
  have Yp : Y.isPaused = false := by rw [hY, resetUpd_isPaused]
  have Ycb : Y.chBuffer = [] := by rw [hY, resetUpd_chBuffer]
  have Yf : Y.firstChOnLine = true := by
    rw [hY, resetUpd_firstChOnLine, hfp, bufUpd_firstChOnLine, hs2,
        pause_firstChOnLine]
    exact fc1
  have Ycl : Y.collectLineForLog = false := by
    rw [hY, resetUpd_collectLineForLog, hfp, bufUpd_collectLineForLog, hs2,
        pause_collectLineForLog]
    exact cl1
  have Ymq : Y.logToMQTT = true := by
    rw [hY, resetUpd_logToMQTT, hfp, bufUpd_logToMQTT, hs2, pause_logToMQTT,
        hs1, (feedAll_frame _ _).1]
    rfl
  have YT : Y.loggingThreshold = LOG_LEVEL_VERBOSE := by
    rw [hY, resetUpd_loggingThreshold, hfp, bufUpd_loggingThreshold, hs2,
        pause_loggingThreshold, hs1, (feedAll_frame _ _).2.2.2.2.2.1]
    rfl
  have Yserf : Y.logToSerial = true := by
    rw [hY, resetUpd_logToSerial, hfp, bufUpd_logToSerial, hs2,
        pause_logToSerial, hs1, (feedAll_frame _ _).2.2.2.1]
    rfl
  have Ysp : Y.serialPort = 0 := by
    rw [hY, resetUpd_serialPort, hfp, bufUpd_serialPort, hs2,
        pause_serialPort, hs1, (feedAll_frame _ _).2.2.2.2.1]
    rfl
  have Ysent : Y.mqttSent = [⟨LOG_LEVEL_WARNING, [87, 97, 98, 99]⟩] := by
    rw [hY, resetUpd_mqttSent, hfp, bufUpd_mqttSent, hs2, pause_mqttSent]
    exact m1h
  have Yser : Y.serialOut = [87, 97, 98, 99, 10] := by
    rw [hY, resetUpd_serialOut, hfp, bufUpd_serialOut, hs2, pause_serialOut]
    exact su1
  obtain ⟨m2, _, _, _, _⟩ := feed_line Y Yp (Or.inl Ymq) Yf Ycl
    69 [100, 101, 102] (by decide) (by decide)
  rw [show (69 :: ([100, 101, 102] ++ [10])) = [69, 100, 101, 102, 10] from rfl,
      YT, Ymq] at m2
  rw [if_pos (⟨by decide, rfl⟩ :
    msgLevelOf 69 ≤ LOG_LEVEL_VERBOSE ∧ (true : Bool) = true)] at m2
  rw [Ysent] at m2
  have m2h : (feedAll Y [69, 100, 101, 102, 10]).mqttSent =
      [⟨LOG_LEVEL_WARNING, [87, 97, 98, 99]⟩,
       ⟨LOG_LEVEL_ERROR, [69, 100, 101, 102]⟩] := by
    rw [m2]; rfl
  refine ⟨?_, ?_, ?_, hres⟩
  · conv_lhs => rw [hres]
    exact m2h
  · conv_lhs => rw [hres, feedAll_serialOut_on [69, 100, 101, 102, 10] Y Yp Yserf Ysp, Yser]
    rfl
  · conv_lhs => rw [hres, feedAll_unpaused_chBuffer [69, 100, 101, 102, 10] Y Yp, Ycb]

/-- Witness for C4: the same scenario at capacity exactly 10. -/
theorem claim_C4_pause_resume_fifo_witness :
    (resume (feedAll (pause (feedAll (pauseDemoState 10)
        [87, 97, 98, 99, 10]) 0) [69, 100, 101, 102, 10])).mqttSent =
      [⟨LOG_LEVEL_WARNING, [87, 97, 98, 99]⟩,
       ⟨LOG_LEVEL_ERROR, [69, 100, 101, 102]⟩] ∧
    (resume (feedAll (pause (feedAll (pauseDemoState 10)
        [87, 97, 98, 99, 10]) 0) [69, 100, 101, 102, 10])).serialOut =
      [87, 97, 98, 99, 10, 69, 100, 101, 102, 10] ∧
    (resume (feedAll (pause (feedAll (pauseDemoState 10)
        [87, 97, 98, 99, 10]) 0) [69, 100, 101, 102, 10])).chBuffer = [] ∧
    resume (feedAll (pause (feedAll (pauseDemoState 10)
        [87, 97, 98, 99, 10]) 0) [69, 100, 101, 102, 10]) =
      feedAll { feedAll (pause (feedAll (pauseDemoState 10)
          [87, 97, 98, 99, 10]) 0) [69, 100, 101, 102, 10] with
            isPaused := false, chBuffer := [] }
        [69, 100, 101, 102, 10] :=
  claim_C4_pause_resume_fifo 10 0 (by decide)

/-- Counterexample to C8: the claim says a setter call whose effective
values equal the current configuration never triggers a persistence
write.  `setSerial` detects change by comparing the decimal rendering of
the current port (`String(_serialPort)`) with the raw argument string:
with the port currently 0 and the serial flag set, calling
`setSerial(true, "00")` leaves both effective values unchanged
(`atoi("00") == 0`), yet one persistence write-back occurs. -/
theorem claim_C8_counterexample :
    (setSerial cfgState true "00").nvLog.length = 1 ∧
    (setSerial cfgState true "00").serialPort = cfgState.serialPort ∧
    (setSerial cfgState true "00").logToSerial = cfgState.logToSerial := by
  refine ⟨?_, ?_, ?_⟩ <;> decide

/-- C8 as amended: with a persistence collaborator attached, every
setter persists exactly one write-back when its change test fires and
none otherwise.  The change tests compare effective values for the log
level (the parsed level), MQTT (flag and topic), command-serial (flag)
and HTTP (flag and the validated address, port and url, empty arguments
defaulting to the current values) — so those four setters are idempotent
on effectively-equal arguments; `setSerial`, however, compares the
decimal rendering of the current port with the raw argument string, so
its change test also fires on a non-canonical string with an unchanged
effective value. -/
theorem claim_C8_amended (s : NetLogState) (hcb : s.hasConfigBase = true)
    (lvlStr topicStr portStr ipStr hportStr urlStr : String)
    (mqttFlag serFlag cmdFlag httpFlag : Bool) :
    (setLogLevel s lvlStr).nvLog.length = s.nvLog.length +
      (if s.loggingThreshold ≠ parseLogLevel lvlStr then 1 else 0) ∧
    (setMQTT s mqttFlag topicStr).nvLog.length = s.nvLog.length +
      (if s.logToMQTT ≠ mqttFlag ∨ s.mqttLogTopic ≠ topicStr
       then 1 else 0) ∧
    (setCmdSerial s cmdFlag).nvLog.length = s.nvLog.length +
      (if s.logToCommandSerial ≠ cmdFlag then 1 else 0) ∧
    (setHTTP s httpFlag ipStr hportStr urlStr).nvLog.length =
      s.nvLog.length +
      (if s.logToHTTP ≠ httpFlag ∨
          s.httpLogUrl ≠ (if urlStr.length = 0 then s.httpLogUrl else urlStr) ∨
          s.httpIpAddr ≠ (if ipStr.length = 0 then s.httpIpAddr else ipStr) ∨
          s.httpPort ≠ (if hportStr.length = 0 then s.httpPort
                        else atoi hportStr)
       then 1 else 0) ∧
    (setSerial s serFlag portStr).nvLog.length = s.nvLog.length +
      (if s.logToSerial ≠ serFlag ∨ toString s.serialPort ≠ portStr
       then 1 else 0) := by
  refine ⟨?_, ?_, ?_, ?_, ?_⟩
  · by_cases h : s.loggingThreshold ≠ parseLogLevel lvlStr <;>
      simp [setLogLevel, persistConfig, h, hcb]
  · by_cases h : s.logToMQTT ≠ mqttFlag ∨ s.mqttLogTopic ≠ topicStr <;>
      simp [setMQTT, persistConfig, h, hcb]
  · by_cases h : s.logToCommandSerial ≠ cmdFlag <;>
      simp [setCmdSerial, persistConfig, h, hcb]
  · by_cases h : s.logToHTTP ≠ httpFlag ∨
        s.httpLogUrl ≠ (if urlStr.length = 0 then s.httpLogUrl else urlStr) ∨
        s.httpIpAddr ≠ (if ipStr.length = 0 then s.httpIpAddr else ipStr) ∨
        s.httpPort ≠ (if hportStr.length = 0 then s.httpPort
                      else atoi hportStr) <;>
      simp [setHTTP, persistConfig, h, hcb]
  · by_cases h : s.logToSerial ≠ serFlag ∨ toString s.serialPort ≠ portStr <;>
      simp [setSerial, persistConfig, h, hcb]

/-- Witness for C8 as amended: on a configured object (threshold
VERBOSE, MQTT on with empty topic, serial on channel 0, command-serial
and HTTP off), changing the log level persists once, and
effectively-identical calls to the other setters persist nothing. -/
theorem claim_C8_amended_witness :
    cfgState.hasConfigBase = true ∧
    (setLogLevel cfgState "E").nvLog.length = 1 ∧
    (setMQTT cfgState true "").nvLog.length = 0 ∧
    (setCmdSerial cfgState false).nvLog.length = 0 ∧
    (setHTTP cfgState false "" "" "").nvLog.length = 0 ∧
    (setSerial cfgState true "0").nvLog.length = 0 := by
  obtain ⟨h1, h2, h3, h4, h5⟩ := claim_C8_amended cfgState rfl
    "E" "" "0" "" "" "" true true false false
  refine ⟨rfl, ?_, ?_, ?_, ?_, ?_⟩
  · rw [h1]; decide
  · rw [h2]; decide
  · rw [h3]; decide
  · rw [h4]; decide
  · rw [h5]; decide

end NetLog
